import Mathlib

/-!
Verification of the DQ checker scan notebook (`src/Notebook/dq_checker_scan.py`).

The Python source is shallowly embedded: pandas rows become a `CheckRecord`
structure with `Option` fields for possibly-missing (`NaN`/`None`) values,
Python strings become `String`/`List Char`, and the notebook's orchestration
(`execute_suite`) becomes a pure function over an oracle record describing the
outcome of each external call.  Numeric values interpolated into emitted text
are rendered in decimal exactly as Python's f-strings render non-negative
integers.
-/

set_option autoImplicit false

/-! ### Python string primitives

`pyStrip` models Python's `str.strip()` on the ASCII whitespace characters
(space, tab, newline, carriage return, vertical tab, form feed); Unicode
whitespace beyond ASCII is outside the embedding. -/

def pyIsSpace (c : Char) : Bool :=
  c == ' ' || c == '\t' || c == '\n' || c == '\r' ||
  c == Char.ofNat 11 || c == Char.ofNat 12

def pyStrip (s : String) : String :=
  String.mk (((s.data.dropWhile pyIsSpace).reverse.dropWhile pyIsSpace).reverse)

/-- Python's `value.split('\n')` over a character list. -/
def splitOnNl : List Char → List (List Char)
  | [] => [[]]
  | c :: cs =>
    match splitOnNl cs with
    | [] => [[c]]
    | h :: t => if c == '\n' then [] :: h :: t else (c :: h) :: t

/-- Python's `sep.join(parts)` over character lists. -/
def joinSep (sep : List Char) : List (List Char) → List Char
  | [] => []
  | [x] => x
  | x :: y :: rest => x ++ sep ++ joinSep sep (y :: rest)

/-! ### Decimal rendering of naturals (Python f-string interpolation of ints) -/

def digitChar : Nat → Char
  | 0 => '0' | 1 => '1' | 2 => '2' | 3 => '3' | 4 => '4'
  | 5 => '5' | 6 => '6' | 7 => '7' | 8 => '8' | 9 => '9'
  | _ => '?'

/-- Decimal digits of `n`, most significant first; `fuel ≥ n` suffices. -/
def natDigitsAux : Nat → Nat → List Char
  | _, 0 => []
  | 0, _ => []
  | fuel + 1, n + 1 => natDigitsAux fuel ((n + 1) / 10) ++ [digitChar ((n + 1) % 10)]

def natStr (n : Nat) : String :=
  if n = 0 then "0" else String.mk (natDigitsAux n n)

def digitVal (c : Char) : Nat := c.toNat - 48

def digitsToNat (l : List Char) : Nat :=
  l.foldl (fun a c => 10 * a + digitVal c) 0

/-! ### Identity tagger (`_generate_check_yaml` lines 411-413 / `parse_scan_results`)

`tag` appends `" [check_id:<id>]"` when an id is present.  `recover` models
`re.search(r'\[check_id:(\d+)\]', name)`: the leftmost position where the
literal `[check_id:` is followed by a nonempty digit run followed by `]`
(greedy `\d+` with backtracking accepts exactly the maximal digit run ended
by `]`). -/

def tagLit : List Char := ['[', 'c', 'h', 'e', 'c', 'k', '_', 'i', 'd', ':']

/-- Strip the literal `p` from the front of `s`. -/
def dropLit : List Char → List Char → Option (List Char)
  | [], s => some s
  | _ :: _, [] => none
  | p :: ps, c :: cs => if c == p then dropLit ps cs else none

/-- Split off the maximal leading run of decimal digits. -/
def takeDigits : List Char → List Char × List Char
  | [] => ([], [])
  | c :: cs =>
    if c.isDigit then
      let p := takeDigits cs
      (c :: p.1, p.2)
    else ([], c :: cs)

/-- Does the regex `\[check_id:(\d+)\]` match at the start of `s`?  If so,
the captured integer. -/
def matchTagAt (s : List Char) : Option Nat :=
  match dropLit tagLit s with
  | none => none
  | some rest =>
    let p := takeDigits rest
    if p.1 = [] then none
    else
      match p.2 with
      | c :: _ => if c == ']' then some (digitsToNat p.1) else none
      | [] => none

def recoverAux : List Char → Option Nat
  | [] => none
  | c :: cs =>
    match matchTagAt (c :: cs) with
    | some n => some n
    | none => recoverAux cs

def recover (s : String) : Option Nat := recoverAux s.data

def tag (name : String) (id : Option Nat) : String :=
  match id with
  | some i => name ++ " [check_id:" ++ natStr i ++ "]"
  | none => name

/-! ### Value sanitizer (`yaml_safe_value`, lines 274-315) -/

def YAML_SPECIAL_CHARS : List Char :=
  [':', '#', Char.ofNat 123, Char.ofNat 125, '[', ']', '&', '*', '!', '|',
   '>', '@', Char.ofNat 96, '%']

def escBackslash : List Char → List Char
  | [] => []
  | c :: cs => if c == '\\' then '\\' :: '\\' :: escBackslash cs else c :: escBackslash cs

def escQuote : List Char → List Char
  | [] => []
  | c :: cs => if c == '"' then '\\' :: '"' :: escQuote cs else c :: escQuote cs

def needsQuoting (v : List Char) : Bool :=
  v.any (fun c => YAML_SPECIAL_CHARS.contains c) ||
  v.head? == some (Char.ofNat 39) || v.head? == some '"' ||
  v.head? == some ' ' || v.getLast? == some ' '

def spaces8 : List Char := [' ', ' ', ' ', ' ', ' ', ' ', ' ', ' ']

def yaml_safe_value (value : Option String) : String :=
  match value with
  | none => ""
  | some v0 =>
    let v := pyStrip v0
    if v.data = [] then ""
    else if v.data.contains '\n' then
      String.mk (('|' :: '\n' :: spaces8) ++ joinSep ('\n' :: spaces8) (splitOnNl v.data))
    else if needsQuoting v.data then
      String.mk ('"' :: (escQuote (escBackslash v.data) ++ ['"']))
    else v

def yaml_safe_filter (filter_condition : Option String) : String :=
  match filter_condition with
  | none => ""
  | some f =>
    let f' := pyStrip f
    if f'.data = [] then "" else yaml_safe_value (some f')

example : yaml_safe_value (some "a:b\nc") = "|\n        a:b\n        c" := by decide
example : yaml_safe_value (some "  x  ") = "x" := by decide
example : yaml_safe_value (some "a:b") = "\"a:b\"" := by decide
example : recover (tag "orders ok" (some 7)) = some 7 := by decide
example : recover (tag "x [check_id:12" (some 7)) = some 7 := by decide
example : recover "x [check_id:12]" = some 12 := by decide
example : natStr 120 = "120" := by decide

/-! ### Check records

One row of the checks DataFrame.  Possibly-missing (`NaN`/`None`) values are
`Option` fields; `pd.notna(x)` becomes `x.isSome`.  Numeric threshold values
are modeled by their interpolated text (Python renders them in the f-string;
for freshness the integral-float collapse of lines 452-453 happens before
that rendering and is absorbed into the field's text). -/

structure CheckRecord where
  check_id : Option Nat
  check_name : String
  metric : String
  table_name : String
  schema_name : Option String
  column_name : Option String
  column_name_quoted : Option String
  warn_threshold : Option String
  warn_comparison : Option String
  fail_threshold : Option String
  fail_comparison : Option String
  freshness_column : Option String
  freshness_threshold_value : Option String
  freshness_threshold_unit : Option String
  /-- `none` = NaN; `some none` = present but `json.loads` raises;
  `some (some cols)` = present and parses to a list of column names. -/
  schema_required_columns : Option (Option (List String))
  schema_forbidden_columns : Option (Option (List String))
  reference_table : Option String
  reference_column : Option String
  reference_column_quoted : Option String
  custom_sql_query : Option String
  scalar_query_a : Option String
  scalar_query_b : Option String
  scalar_operator : Option String
  deriving DecidableEq

def SUPPORTED_METRICS : List String :=
  ["row_count", "missing_count", "missing_percent",
   "duplicate_count", "duplicate_percent",
   "min", "max", "avg", "sum",
   "invalid_count", "invalid_percent", "valid_count",
   "avg_length", "min_length",
   "reference", "user_defined", "custom_sql",
   "scalar_comparison", "freshness", "schema"]

/-- The repeated `check_name [check_id:...]` construction of lines 411-413,
460-461, 471-472, 519-520, 552-553, 572-574. -/
def taggedName (r : CheckRecord) : String :=
  match r.check_id with
  | some i => r.check_name ++ " [check_id:" ++ natStr i ++ "]"
  | none => r.check_name

/-- `check.get('column_name_quoted') or check.get('column_name')` with the
usual `None`-falsy reading of a missing value. -/
def resolvedColumn (r : CheckRecord) : Option String :=
  match r.column_name_quoted with
  | some c => some c
  | none => r.column_name

/-! ### Rule emitters (lines 377-598) -/

def _generate_threshold_yaml (r : CheckRecord) : List String :=
  (match r.warn_threshold, r.warn_comparison with
   | some t, some cmp =>
     ["      warn: when " ++ (if cmp = "==" then "=" else cmp) ++ " " ++ t]
   | _, _ => []) ++
  (match r.fail_threshold, r.fail_comparison with
   | some t, some cmp =>
     ["      fail: when " ++ (if cmp = "==" then "=" else cmp) ++ " " ++ t]
   | _, _ => [])

def _generate_freshness_yaml (r : CheckRecord) : List String :=
  match r.freshness_column, r.freshness_threshold_value, r.freshness_threshold_unit with
  | some col, some tval, some tunit =>
    ["  - freshness(" ++ col ++ ") < " ++ tval ++ tunit ++ ":",
     "      name: \"" ++ taggedName r ++ "\""]
  | _, _, _ => []

def _generate_schema_yaml (r : CheckRecord) : List String :=
  let base := ["  - schema:", "      name: \"" ++ taggedName r ++ "\""]
  let lines1 :=
    match r.schema_required_columns with
    | some (some required) =>
      if required ≠ [] then
        base ++ ["      fail:", "        when required column missing:"] ++
          required.map (fun col => "          - " ++ col)
      else base
    | _ => base
  match r.schema_forbidden_columns with
  | some (some forbidden) =>
    if forbidden ≠ [] then
      (if lines1.contains "      fail:" then lines1 else lines1 ++ ["      fail:"]) ++
        ["        when forbidden column present:"] ++
        forbidden.map (fun col => "          - " ++ col)
    else lines1
  | _ => lines1

/-- A pandas missing value interpolated into an f-string renders as the text
`nan` (float NaN); used where the source interpolates possibly-missing
fields without a presence check. -/
def interpOpt (v : Option String) : String :=
  match v with
  | some s => s
  | none => "nan"

def _generate_reference_yaml (r : CheckRecord) : List String :=
  match r.reference_table, r.reference_column with
  | some ref_table, some refcol =>
    let source_column := interpOpt (resolvedColumn r)
    let ref_column := match r.reference_column_quoted with
                      | some c => c
                      | none => refcol
    -- `check.get('schema_name', 'dbo')`: the label is always selected by the
    -- read query, so the `'dbo'` default is reached only when the label is
    -- absent; a NaN value interpolates as `nan`.
    let schema_name := interpOpt r.schema_name
    let source_fqn := schema_name ++ "." ++ r.table_name
    let ref_fqn := "dbo." ++ ref_table
    ["  - failed rows:",
     "      name: \"" ++ taggedName r ++ "\"",
     "      fail query: |",
     "        SELECT * FROM " ++ source_fqn,
     "        WHERE " ++ source_column ++ " IS NOT NULL",
     "          AND " ++ source_column ++ " NOT IN (",
     "            SELECT " ++ ref_column ++ " FROM " ++ ref_fqn,
     "          )"]
  | _, _ => []

/-- `re.sub(r'[^a-zA-Z0-9_]', '_', name.lower())` then `re.sub(r'_+', '_', ...)`
then `.strip('_')`.  `Char.toLower` and `Char.isAlphanum` are the ASCII maps,
matching the ASCII regex classes. -/
def collapseUnderscore : List Char → List Char
  | [] => []
  | [c] => [c]
  | c :: d :: rest =>
    if c == '_' && d == '_' then collapseUnderscore (d :: rest)
    else c :: collapseUnderscore (d :: rest)

def stripUnderscore (l : List Char) : List Char :=
  ((l.dropWhile (· == '_')).reverse.dropWhile (· == '_')).reverse

def safe_metric_name (check_name : String) : String :=
  let step1 := (check_name.data.map Char.toLower).map
    (fun c => if c.isAlphanum || c == '_' then c else '_')
  String.mk (stripUnderscore (collapseUnderscore step1))

def _generate_custom_sql_yaml (r : CheckRecord) : List String :=
  match r.custom_sql_query with
  | some q =>
    let custom_sql := pyStrip q
    let nm := safe_metric_name r.check_name
    let header :=
      match r.fail_comparison, r.fail_threshold with
      | some cmp, some t =>
        "  - " ++ nm ++ " " ++ (if cmp = "==" then "=" else cmp) ++ " " ++ t ++ ":"
      | _, _ => "  - " ++ nm ++ " = 0:"
    [header,
     "      name: \"" ++ taggedName r ++ "\"",
     "      " ++ nm ++ " query: |"] ++
      (splitOnNl custom_sql.data).map (fun line => "        " ++ String.mk line)
  | none => []

/-- `where_map.get(operator, 'query_a != query_b')` of lines 588-596. -/
def where_map_get (op : String) : String :=
  if op = "==" then "query_a != query_b"
  else if op = "!=" then "query_a = query_b"
  else if op = ">" then "query_a <= query_b"
  else if op = ">=" then "query_a < query_b"
  else if op = "<" then "query_a >= query_b"
  else if op = "<=" then "query_a > query_b"
  else "query_a != query_b"

def _generate_scalar_comparison_yaml (r : CheckRecord) : List String :=
  match r.scalar_query_a, r.scalar_query_b with
  | some qa0, some qb0 =>
    let query_a := pyStrip qa0
    let query_b := pyStrip qb0
    let operator := r.scalar_operator.getD "=="
    ["  - failed rows:",
     "      name: \"" ++ taggedName r ++ "\"",
     "      fail query: |",
     "        WITH comparison AS (",
     "          SELECT",
     "            (" ++ query_a ++ ") AS query_a,",
     "            (" ++ query_b ++ ") AS query_b",
     "        )",
     "        SELECT query_a, query_b, query_a - query_b AS difference",
     "        FROM comparison",
     "        WHERE " ++ where_map_get operator]
  | _, _ => []

def column_required_metrics : List String :=
  ["missing_count", "missing_percent", "duplicate_count", "duplicate_percent",
   "min", "max", "avg", "sum", "invalid_count", "invalid_percent", "valid_count",
   "avg_length", "min_length", "reference"]

def _generate_check_yaml (r : CheckRecord) : List String :=
  if r.metric = "freshness" then _generate_freshness_yaml r
  else if r.metric = "schema" then _generate_schema_yaml r
  else if r.metric = "reference" then _generate_reference_yaml r
  else if r.metric = "user_defined" ∨ r.metric = "custom_sql" then _generate_custom_sql_yaml r
  else if r.metric = "scalar_comparison" then _generate_scalar_comparison_yaml r
  else
    let header :=
      match resolvedColumn r with
      | some col =>
        if column_required_metrics.contains r.metric then
          "  - " ++ r.metric ++ "(" ++ col ++ "):"
        else "  - " ++ r.metric ++ ":"
      | none => "  - " ++ r.metric ++ ":"
    header :: ("      name: \"" ++ taggedName r ++ "\"") :: _generate_threshold_yaml r

/-! ### Document assembler (`generate_yaml_from_checks`, lines 333-374)

`checks_df.groupby(['schema_name', 'table_name'])` iterates the distinct key
pairs in ascending order, rows with a missing (`NaN`) key value silently
dropped (the pandas default), each group holding its rows in input order. -/

def recKey (r : CheckRecord) : Option (String × String) :=
  r.schema_name.map (fun s => (s, r.table_name))

def keyLE (a b : String × String) : Bool :=
  match compare a.1 b.1 with
  | .lt => true
  | .gt => false
  | .eq =>
    match compare a.2 b.2 with
    | .gt => false
    | _ => true

def insertKey (k : String × String) :
    List (String × String) → List (String × String)
  | [] => [k]
  | x :: xs => if keyLE k x then k :: x :: xs else x :: insertKey k xs

def sortKeys : List (String × String) → List (String × String)
  | [] => []
  | x :: xs => insertKey x (sortKeys xs)

def groupKeys (checks : List CheckRecord) : List (String × String) :=
  sortKeys (checks.filterMap recKey).dedup

def groupRows (checks : List CheckRecord) (k : String × String) : List CheckRecord :=
  checks.filter (fun r => recKey r == some k)

/-- Table identifier resolution of lines 351-361.  The grouped `schema_name`
is never NaN (pandas dropped those rows), so the `pd.notna(schema_name)`
conjuncts of lines 356-358 are identically true here; Python's truthiness
of `schema_in_connection` makes an empty string falsy. -/
def fully_qualified_table (schema_name table_name : String)
    (schema_in_connection : Option String) : String :=
  if table_name.data.contains ' ' || table_name.data.contains '-' then
    "\"" ++ table_name ++ "\""
  else if (match schema_in_connection with
           | some sic => (sic != "") && (schema_name == sic)
           | none => false) then
    table_name
  else if !(table_name.data.contains '.') then
    schema_name ++ "." ++ table_name
  else table_name

def tableLines (checks : List CheckRecord) (k : String × String) : List String :=
  ((groupRows checks k).map _generate_check_yaml).flatten

def tableBlocks (checks : List CheckRecord) :
    List ((String × String) × List String) :=
  (groupKeys checks).filterMap (fun k =>
    if tableLines checks k = [] then none else some (k, tableLines checks k))

def generate_yaml_from_checks (checks : List CheckRecord)
    (schema_in_connection : Option String) : String :=
  if checks = [] then "# No checks found\n"
  else
    String.intercalate "\n"
      ((tableBlocks checks).map (fun b =>
        ("checks for " ++ fully_qualified_table b.1.1 b.1.2 schema_in_connection ++ ":") ::
          (b.2 ++ [""]))).flatten

/-- The category guard of §4.3 of the spec: the payload fields the metric
category makes mandatory, whose joint presence the spec says is equivalent
to the record emitting a rule.  Stated from the spec's table for comparison
with `_generate_check_yaml`. -/
def requiredFieldsPresent (r : CheckRecord) : Bool :=
  if r.metric = "freshness" then
    r.freshness_column.isSome && r.freshness_threshold_value.isSome &&
      r.freshness_threshold_unit.isSome
  else if r.metric = "schema" then true
  else if r.metric = "reference" then
    r.reference_table.isSome && r.reference_column.isSome
  else if r.metric = "user_defined" ∨ r.metric = "custom_sql" then
    r.custom_sql_query.isSome
  else if r.metric = "scalar_comparison" then
    r.scalar_query_a.isSome && r.scalar_query_b.isSome
  else true

example : safe_metric_name "Nulls > 5%!" = "nulls_5" := by decide
example : where_map_get ">" = "query_a <= query_b" := by decide

/-! ### Result reconciliation (`parse_scan_results` / `count_outcomes`, lines 641-681) -/

structure SodaCheck where
  /-- `check.get('name', '')`: `none` models an absent key. -/
  name : Option String
  /-- `check.get('outcome', 'unknown')`. -/
  outcome : Option String
  /-- `diagnostics.get('value', check.get('value'))`: the outer `Option` is key
  presence in the diagnostics sub-structure, the inner the possibly-null value;
  scalar values are modeled by their rendered text. -/
  diagnostics_value : Option (Option String)
  value : Option String
  deriving DecidableEq

structure ResultRec where
  check_id : Option Nat
  check_name : String
  outcome : String
  value : Option String
  deriving DecidableEq

def parse_scan_results (checks : List SodaCheck) : List ResultRec :=
  checks.map (fun c =>
    let check_name := c.name.getD ""
    let check_value :=
      match c.diagnostics_value with
      | some v => v
      | none => c.value
    { check_id := recover check_name
      check_name := check_name
      outcome := c.outcome.getD "unknown"
      value := check_value })

structure OutcomeCounts where
  total : Nat
  passed : Nat
  failed : Nat
  warned : Nat
  errors : Nat
  deriving DecidableEq

def count_outcomes (results : List ResultRec) : OutcomeCounts :=
  { total := results.length
    passed := (results.filter (fun r => r.outcome == "pass")).length
    failed := (results.filter (fun r => r.outcome == "fail")).length
    warned := (results.filter (fun r => r.outcome == "warn")).length
    errors := (results.filter (fun r => r.outcome == "error")).length }

/-! ### Ledger writes (`write_results_to_db` / `update_execution_log`, lines 689-729) -/

/-- Python's `s.replace("'", "''")`. -/
def escSqAux : List Char → List Char
  | [] => []
  | c :: cs =>
    if c == Char.ofNat 39 then Char.ofNat 39 :: Char.ofNat 39 :: escSqAux cs
    else c :: escSqAux cs

def escapeSq (s : String) : String := String.mk (escSqAux s.data)

/-- `r['check_id'] if r['check_id'] else 'NULL'`: Python truthiness, under
which both `None` and `0` select the literal `NULL`. -/
def checkIdParam (r : ResultRec) : String :=
  match r.check_id with
  | some i => if i ≠ 0 then natStr i else "NULL"
  | none => "NULL"

/-- `r['value'] if r['value'] is not None else 'NULL'`: an explicit `None`
test, so a present `0` is preserved. -/
def checkValueParam (r : ResultRec) : String :=
  match r.value with
  | some v => v
  | none => "NULL"

def sp_insert_result_query (run_id : String) (execution_log_id : Nat)
    (r : ResultRec) : String :=
  let check_name := if r.check_name != "" then escapeSq r.check_name else ""
  let outcome := if r.outcome != "" then escapeSq r.outcome else ""
  "EXEC sp_insert_result\n            @run_id='" ++ run_id ++
  "',\n            @execution_log_id=" ++ natStr execution_log_id ++
  ",\n            @check_id=" ++ checkIdParam r ++
  ",\n            @check_name='" ++ check_name ++
  "',\n            @check_outcome='" ++ outcome ++
  "',\n            @check_value=" ++ checkValueParam r

/-- The sequence of SP calls `write_results_to_db` issues, in order. -/
def write_results_to_db (run_id : String) (execution_log_id : Nat)
    (results : List ResultRec) : List String :=
  results.map (sp_insert_result_query run_id execution_log_id)

/-- Python truthiness of the optional error text: `None` and `''` are falsy. -/
def pyTruthy (s : Option String) : Bool :=
  match s with
  | some t => t != ""
  | none => false

structure LedgerUpdate where
  execution_log_id : Nat
  status : String
  total_checks : Nat
  checks_passed : Nat
  checks_failed : Nat
  checks_warned : Nat
  has_failures : Nat
  generated_yaml : String
  error_message : Option String
  deriving DecidableEq

def update_execution_log (execution_log_id : Nat)
    (total passed failed warned : Nat) (yaml_content : String)
    (error_message : Option String) : LedgerUpdate :=
  { execution_log_id := execution_log_id
    status := if pyTruthy error_message then "failed" else "completed"
    total_checks := total
    checks_passed := passed
    checks_failed := failed
    checks_warned := warned
    has_failures := if failed > 0 then 1 else 0
    generated_yaml := yaml_content
    error_message := error_message }

def update_execution_log_query (u : LedgerUpdate) : String :=
  let yaml_escaped := if u.generated_yaml != "" then escapeSq u.generated_yaml else ""
  let error_param :=
    if pyTruthy u.error_message then "'" ++ escapeSq (u.error_message.getD "") ++ "'"
    else "NULL"
  "EXEC sp_update_execution_log\n        @execution_log_id=" ++ natStr u.execution_log_id ++
  ",\n        @status='" ++ u.status ++
  "',\n        @total_checks=" ++ natStr u.total_checks ++
  ",\n        @checks_passed=" ++ natStr u.checks_passed ++
  ",\n        @checks_failed=" ++ natStr u.checks_failed ++
  ",\n        @checks_warned=" ++ natStr u.checks_warned ++
  ",\n        @has_failures=" ++ natStr u.has_failures ++
  ",\n        @generated_yaml='" ++ yaml_escaped ++
  "',\n        @error_message=" ++ error_param

/-! ### Orchestration (`execute_suite`, lines 873-994)

The external calls are an oracle record: each `Except` value is what the
corresponding blocking call does on this run (`.error e` = it raises an
exception whose text is `e`). -/

structure ScanOutput where
  checks : List SodaCheck
  logs : String
  has_errors : Bool
  error_logs : Option String
  deriving DecidableEq

instance exceptDecEq {ε α : Type} [DecidableEq ε] [DecidableEq α] :
    DecidableEq (Except ε α) := fun a b =>
  match a, b with
  | .error x, .error y =>
    if h : x = y then .isTrue (h ▸ rfl)
    else .isFalse (fun he => h (Except.error.inj he))
  | .error _, .ok _ => .isFalse (fun he => Except.noConfusion he)
  | .ok _, .error _ => .isFalse (fun he => Except.noConfusion he)
  | .ok x, .ok y =>
    if h : x = y then .isTrue (h ▸ rfl)
    else .isFalse (fun he => h (Except.ok.inj he))

structure Oracles where
  /-- `get_metadata_connection()`: on `.error`, `conn` stays `None`. -/
  conn : Except String Unit
  create_log : Except String Nat
  read_checks : Except String (List CheckRecord)
  scan : Except String ScanOutput
  write_db : Except String Unit
  update_log_call : Except String Unit
  onelake : Except String Unit
  /-- Whether the best-effort ledger update inside the `except` block succeeds. -/
  rescue_update_ok : Bool
  deriving DecidableEq

inductive RunResult
  | no_checks
  | completed (counts : OutcomeCounts) (has_failures : Bool)
  deriving DecidableEq

structure SuiteRun where
  result : Except String RunResult
  /-- The successful `sp_update_execution_log` writes, in order. -/
  ledger : List LedgerUpdate
  deriving DecidableEq

/-- Lines 982-988: `if conn and execution_log_id: try: update_execution_log(...)
except: pass`.  A zero log id is falsy and skips the write; a failing write is
swallowed either way. -/
def rescueWrites (execution_log_id : Nat) (yaml_content : String) (e : String)
    (update_ok : Bool) : List LedgerUpdate :=
  if (execution_log_id != 0) && update_ok then
    [update_execution_log execution_log_id 0 0 0 0 yaml_content (some e)]
  else []

def execute_suite (o : Oracles) : SuiteRun :=
  match o.conn with
  | .error e => { result := .error e, ledger := [] }
  | .ok _ =>
    match o.create_log with
    | .error e => { result := .error e, ledger := [] }
    | .ok execution_log_id =>
      match o.read_checks with
      | .error e =>
        { result := .error e
          ledger := rescueWrites execution_log_id "" e o.rescue_update_ok }
      | .ok checks_df =>
        if checks_df = [] then { result := .ok .no_checks, ledger := [] }
        else
          let yaml_content := generate_yaml_from_checks checks_df none
          match o.scan with
          | .error e =>
            { result := .error e
              ledger := rescueWrites execution_log_id yaml_content e o.rescue_update_ok }
          | .ok scan_output =>
            let results := parse_scan_results scan_output.checks
            let counts := count_outcomes results
            let error_message :=
              if scan_output.has_errors then scan_output.error_logs else none
            match o.write_db with
            | .error e =>
              { result := .error e
                ledger := rescueWrites execution_log_id yaml_content e o.rescue_update_ok }
            | .ok _ =>
              match o.update_log_call with
              | .error e =>
                { result := .error e
                  ledger := rescueWrites execution_log_id yaml_content e o.rescue_update_ok }
              | .ok _ =>
                let normal := update_execution_log execution_log_id counts.total
                  counts.passed counts.failed counts.warned yaml_content error_message
                match o.onelake with
                | .error e =>
                  { result := .error e
                    ledger := normal ::
                      rescueWrites execution_log_id yaml_content e o.rescue_update_ok }
                | .ok _ =>
                  { result := .ok (.completed counts (counts.failed != 0))
                    ledger := [normal] }

/-! ### Concrete records used by witnesses and counterexamples -/

/-- An all-absent check record, the base the concrete examples extend. -/
def baseRecord : CheckRecord :=
  { check_id := none, check_name := "", metric := "", table_name := ""
    schema_name := none, column_name := none, column_name_quoted := none
    warn_threshold := none, warn_comparison := none
    fail_threshold := none, fail_comparison := none
    freshness_column := none, freshness_threshold_value := none
    freshness_threshold_unit := none
    schema_required_columns := none, schema_forbidden_columns := none
    reference_table := none, reference_column := none
    reference_column_quoted := none, custom_sql_query := none
    scalar_query_a := none, scalar_query_b := none, scalar_operator := none }

def mkOut (o : String) : ResultRec :=
  { check_id := none, check_name := "", outcome := o, value := none }

/-! ### C7: outcome aggregation -/

theorem outcome_partition (l : List ResultRec) :
    l.countP (fun r => r.outcome == "pass") + l.countP (fun r => r.outcome == "fail") +
      l.countP (fun r => r.outcome == "warn") + l.countP (fun r => r.outcome == "error") +
      l.countP (fun r => !(r.outcome == "pass") && !(r.outcome == "fail") &&
        !(r.outcome == "warn") && !(r.outcome == "error")) = l.length := by
  induction l with
  | nil => simp
  | cons r t ih =>
    simp only [List.countP_cons, List.length_cons]
    by_cases h1 : r.outcome = "pass" <;> by_cases h2 : r.outcome = "fail" <;>
      by_cases h3 : r.outcome = "warn" <;> by_cases h4 : r.outcome = "error" <;>
      simp_all <;> omega

/-- C7.  The aggregate counters of `count_outcomes` are: `total` is the length
of the outcome list, and `passed`/`failed`/`warned`/`errors` count the records
whose outcome is exactly `pass`/`fail`/`warn`/`error`; records with any other
outcome (e.g. `unknown`) contribute to `total` only, the five buckets plus the
leftovers partitioning the list.  In particular `[pass, pass, fail, warn,
unknown]` aggregates to `{total := 5, passed := 2, failed := 1, warned := 1}`. -/
theorem c7_outcome_aggregation (results : List ResultRec) :
    (count_outcomes results).total = results.length ∧
    (count_outcomes results).passed = results.countP (fun r => r.outcome == "pass") ∧
    (count_outcomes results).failed = results.countP (fun r => r.outcome == "fail") ∧
    (count_outcomes results).warned = results.countP (fun r => r.outcome == "warn") ∧
    (count_outcomes results).errors = results.countP (fun r => r.outcome == "error") ∧
    (count_outcomes results).passed + (count_outcomes results).failed +
      (count_outcomes results).warned + (count_outcomes results).errors +
      results.countP (fun r => !(r.outcome == "pass") && !(r.outcome == "fail") &&
        !(r.outcome == "warn") && !(r.outcome == "error")) = results.length ∧
    count_outcomes [mkOut "pass", mkOut "pass", mkOut "fail", mkOut "warn", mkOut "unknown"] =
      { total := 5, passed := 2, failed := 1, warned := 1, errors := 0 } := by
  refine ⟨rfl, ?_, ?_, ?_, ?_, ?_, by decide⟩
  · simp [count_outcomes, List.countP_eq_length_filter]
  · simp [count_outcomes, List.countP_eq_length_filter]
  · simp [count_outcomes, List.countP_eq_length_filter]
  · simp [count_outcomes, List.countP_eq_length_filter]
  · have h := outcome_partition results
    simpa [count_outcomes, List.countP_eq_length_filter] using h

/-! ### C4: scalar comparison inversion -/

/-- C4.  For a scalar-comparison check with both query strings present, the
last emitted line is the `WHERE` filter built from the inverted operator
table: `==`→`query_a != query_b`, `!=`→`query_a = query_b`,
`>`→`query_a <= query_b`, `>=`→`query_a < query_b`, `<`→`query_a >= query_b`,
`<=`→`query_a > query_b`, and any operator outside that set falls back to the
`!=` inversion `query_a != query_b`. -/
theorem c4_scalar_comparison_inversion (r : CheckRecord) (qa qb : String)
    (hm : r.metric = "scalar_comparison")
    (ha : r.scalar_query_a = some qa) (hb : r.scalar_query_b = some qb) :
    (_generate_check_yaml r).getLast? =
      some ("        WHERE " ++ where_map_get (r.scalar_operator.getD "==")) ∧
    where_map_get "==" = "query_a != query_b" ∧
    where_map_get "!=" = "query_a = query_b" ∧
    where_map_get ">" = "query_a <= query_b" ∧
    where_map_get ">=" = "query_a < query_b" ∧
    where_map_get "<" = "query_a >= query_b" ∧
    where_map_get "<=" = "query_a > query_b" ∧
    ∀ op : String, op ∉ (["==", "!=", ">", ">=", "<", "<="] : List String) →
      where_map_get op = "query_a != query_b" := by
  refine ⟨?_, by decide, by decide, by decide, by decide, by decide, by decide, ?_⟩
  · simp [_generate_check_yaml, hm, _generate_scalar_comparison_yaml, ha, hb]
  · intro op hop
    simp only [List.mem_cons, List.not_mem_nil, or_false, not_or] at hop
    obtain ⟨h1, h2, h3, h4, h5, h6⟩ := hop
    simp [where_map_get, h1, h2, h3, h4, h5, h6]

def c4rec : CheckRecord :=
  { baseRecord with
    check_id := some 3, check_name := "cmp", metric := "scalar_comparison"
    table_name := "t", schema_name := some "dbo"
    scalar_query_a := some "SELECT 1", scalar_query_b := some "SELECT 2"
    scalar_operator := some ">" }

theorem c4_scalar_comparison_inversion_witness :
    c4rec.metric = "scalar_comparison" ∧
    c4rec.scalar_query_a = some "SELECT 1" ∧
    c4rec.scalar_query_b = some "SELECT 2" ∧
    (_generate_check_yaml c4rec).getLast? = some "        WHERE query_a <= query_b" := by
  have h := c4_scalar_comparison_inversion c4rec "SELECT 1" "SELECT 2" rfl rfl rfl
  refine ⟨rfl, rfl, rfl, ?_⟩
  rw [h.1]
  decide

/-! ### C10: zero check identity lost at the ledger boundary -/

/-- C10.  `write_results_to_db` tests the recovered check id by Python
truthiness (`r['check_id'] if r['check_id'] else 'NULL'`), so a record whose
check id is `0` produces the same SP call as one whose id is absent: the
`@check_id` parameter is the literal `NULL`.  A nonzero id is rendered as its
decimal text, and an observed value of `0` is preserved, since the value field
is tested with `is not None`. -/
theorem c10_zero_check_id_becomes_null (run_id : String) (execution_log_id : Nat)
    (r : ResultRec) (h : r.check_id = some 0) :
    checkIdParam r = "NULL" ∧
    sp_insert_result_query run_id execution_log_id r =
      sp_insert_result_query run_id execution_log_id { r with check_id := none } ∧
    (∀ n : Nat, n ≠ 0 → checkIdParam { r with check_id := some n } = natStr n) ∧
    (r.value = some "0" → checkValueParam r = "0") := by
  refine ⟨?_, ?_, ?_, ?_⟩
  · simp [checkIdParam, h]
  · simp [sp_insert_result_query, checkIdParam, checkValueParam, h]
  · intro n hn; simp [checkIdParam, hn]
  · intro hv; simp [checkValueParam, hv]

theorem c10_zero_check_id_becomes_null_witness :
    checkIdParam { check_id := some 0, check_name := "c", outcome := "pass", value := some "0" } = "NULL" ∧
    checkValueParam { check_id := some 0, check_name := "c", outcome := "pass", value := some "0" } = "0" := by
  have h := c10_zero_check_id_becomes_null "run1" 7
    { check_id := some 0, check_name := "c", outcome := "pass", value := some "0" } rfl
  exact ⟨h.1, h.2.2.2 rfl⟩

/-! ### C6: custom predicate emission -/

/-- C6.  For a custom-predicate check (`user_defined` or `custom_sql`) whose
raw SQL payload is present, the emitted stanza is: a header
`- <derived_name> {op} {threshold}:` with `==` rendered as `=` and defaulting
to `= 0` when the fail threshold or comparison is missing; the verbatim name
line; a `<derived_name> query: |` line; and the raw SQL reproduced
line-by-line re-indented by 8 spaces.  The derived metric name lowercases the
check name, collapses non-alphanumeric runs to single underscores and trims
edge underscores, e.g. `"Nulls > 5%!"` derives `nulls_5`. -/
theorem c6_custom_predicate_emission (r : CheckRecord) (sql : String)
    (hm : r.metric = "user_defined" ∨ r.metric = "custom_sql")
    (hq : r.custom_sql_query = some sql) :
    (∀ cmp t, r.fail_comparison = some cmp → r.fail_threshold = some t →
      _generate_check_yaml r =
        ["  - " ++ safe_metric_name r.check_name ++ " " ++
           (if cmp = "==" then "=" else cmp) ++ " " ++ t ++ ":",
         "      name: \"" ++ taggedName r ++ "\"",
         "      " ++ safe_metric_name r.check_name ++ " query: |"] ++
          (splitOnNl (pyStrip sql).data).map (fun line => "        " ++ String.mk line)) ∧
    ((r.fail_comparison = none ∨ r.fail_threshold = none) →
      _generate_check_yaml r =
        ["  - " ++ safe_metric_name r.check_name ++ " = 0:",
         "      name: \"" ++ taggedName r ++ "\"",
         "      " ++ safe_metric_name r.check_name ++ " query: |"] ++
          (splitOnNl (pyStrip sql).data).map (fun line => "        " ++ String.mk line)) ∧
    safe_metric_name "Nulls > 5%!" = "nulls_5" := by
  have hdispatch : _generate_check_yaml r = _generate_custom_sql_yaml r := by
    rcases hm with h | h <;> simp [_generate_check_yaml, h]
  refine ⟨?_, ?_, by decide⟩
  · intro cmp t hc ht
    rw [hdispatch]
    simp [_generate_custom_sql_yaml, hq, hc, ht]
  · intro hnone
    rw [hdispatch]
    rcases hnone with h | h
    · simp [_generate_custom_sql_yaml, hq, h]
    · rcases hc : r.fail_comparison with _ | cmp <;>
        simp [_generate_custom_sql_yaml, hq, h, hc]

def c6rec : CheckRecord :=
  { baseRecord with
    check_id := some 9, check_name := "Nulls > 5%!", metric := "custom_sql"
    table_name := "t", schema_name := some "dbo"
    custom_sql_query := some "SELECT *\nFROM t WHERE x IS NULL" }

theorem c6_custom_predicate_emission_witness :
    _generate_check_yaml c6rec =
      ["  - nulls_5 = 0:",
       "      name: \"Nulls > 5%! [check_id:9]\"",
       "      nulls_5 query: |",
       "        SELECT *",
       "        FROM t WHERE x IS NULL"] := by
  have h := (c6_custom_predicate_emission c6rec "SELECT *\nFROM t WHERE x IS NULL"
    (Or.inr rfl) rfl).2.1 (Or.inl rfl)
  rw [h]
  decide

/-! ### C9: the name line bypasses the sanitizer -/

theorem schema_get1 (r : CheckRecord) :
    (_generate_schema_yaml r)[1]? = some ("      name: \"" ++ taggedName r ++ "\"") := by
  unfold _generate_schema_yaml
  rcases hreq : r.schema_required_columns with _ | (_ | required) <;>
    rcases hforb : r.schema_forbidden_columns with _ | (_ | forbidden) <;>
    simp only [hreq, hforb] <;>
    (repeat' split) <;> simp

theorem emit_get1 (r : CheckRecord) (h : _generate_check_yaml r ≠ []) :
    (_generate_check_yaml r)[1]? = some ("      name: \"" ++ taggedName r ++ "\"") := by
  unfold _generate_check_yaml at h ⊢
  by_cases h1 : r.metric = "freshness"
  · rw [if_pos h1] at h ⊢
    unfold _generate_freshness_yaml at h ⊢
    rcases hc : r.freshness_column with _ | c <;>
      rcases hv : r.freshness_threshold_value with _ | v <;>
      rcases hu : r.freshness_threshold_unit with _ | u <;>
      simp [hc, hv, hu] at h ⊢
  · rw [if_neg h1] at h ⊢
    by_cases h2 : r.metric = "schema"
    · rw [if_pos h2] at h ⊢
      exact schema_get1 r
    · rw [if_neg h2] at h ⊢
      by_cases h3 : r.metric = "reference"
      · rw [if_pos h3] at h ⊢
        unfold _generate_reference_yaml at h ⊢
        rcases ht : r.reference_table with _ | t <;>
          rcases hcol : r.reference_column with _ | c <;> simp [ht, hcol] at h ⊢
      · rw [if_neg h3] at h ⊢
        by_cases h4 : r.metric = "user_defined" ∨ r.metric = "custom_sql"
        · rw [if_pos h4] at h ⊢
          unfold _generate_custom_sql_yaml at h ⊢
          rcases hq : r.custom_sql_query with _ | q <;> simp [hq] at h ⊢
        · rw [if_neg h4] at h ⊢
          by_cases h5 : r.metric = "scalar_comparison"
          · rw [if_pos h5] at h ⊢
            unfold _generate_scalar_comparison_yaml at h ⊢
            rcases ha : r.scalar_query_a with _ | qa <;>
              rcases hb : r.scalar_query_b with _ | qb <;> simp [ha, hb] at h ⊢
          · rw [if_neg h5] at h ⊢
            simp

/-- C9.  Every emitted stanza, whatever its category, has as its second line
the literal `      name: "<tagged name>"` with the tagged check name
interpolated verbatim into the double quotes; `yaml_safe_value` is never
applied, so the quotes and backslashes of the name pass through unescaped
(the line gains exactly the two delimiter quotes and no backslash). -/
theorem c9_name_line_bypasses_sanitizer (r : CheckRecord)
    (h : _generate_check_yaml r ≠ []) :
    (_generate_check_yaml r)[1]? = some ("      name: \"" ++ taggedName r ++ "\"") ∧
    ("      name: \"" ++ taggedName r ++ "\"").data.count '"' =
      (taggedName r).data.count '"' + 2 ∧
    ("      name: \"" ++ taggedName r ++ "\"").data.count '\\' =
      (taggedName r).data.count '\\' := by
  refine ⟨emit_get1 r h, ?_, ?_⟩
  · rw [String.data_append, String.data_append, List.count_append, List.count_append]
    have h1 : ("      name: \"" : String).data.count '"' = 1 := by decide
    have h2 : ("\"" : String).data.count '"' = 1 := by decide
    omega
  · rw [String.data_append, String.data_append, List.count_append, List.count_append]
    have h1 : ("      name: \"" : String).data.count '\\' = 0 := by decide
    have h2 : ("\"" : String).data.count '\\' = 0 := by decide
    omega

def c9rec : CheckRecord :=
  { baseRecord with
    check_id := some 4, check_name := "Bad \"name\"", metric := "row_count"
    table_name := "t", schema_name := some "dbo" }

theorem c9_name_line_bypasses_sanitizer_witness :
    _generate_check_yaml c9rec ≠ [] ∧
    (_generate_check_yaml c9rec)[1]? = some "      name: \"Bad \"name\" [check_id:4]\"" ∧
    ("      name: \"Bad \"name\" [check_id:4]\"").data.count '"' = 4 := by
  have h := c9_name_line_bypasses_sanitizer c9rec (by decide)
  refine ⟨by decide, ?_, by decide⟩
  rw [h.1]
  decide

/-! ### C1: identity round-trip -/

theorem dropLit_self (p z : List Char) : dropLit p (p ++ z) = some z := by
  induction p with
  | nil => rfl
  | cons c cs ih => simp [dropLit, ih]

theorem dropLit_append_space :
    ∀ p : List Char, ' ' ∉ p → ∀ xs ys r : List Char,
      dropLit p (xs ++ ' ' :: ys) = some r →
        ∃ r0, dropLit p xs = some r0 ∧ r = r0 ++ ' ' :: ys := by
  intro p
  induction p with
  | nil =>
    intro _ xs ys r h
    refine ⟨xs, rfl, ?_⟩
    have : xs ++ ' ' :: ys = r := by simpa [dropLit] using h
    exact this.symm
  | cons a ps ih =>
    intro hp xs ys r h
    have ha : (' ' == a) = false := by
      refine beq_eq_false_iff_ne.mpr fun he => hp ?_
      rw [he]
      exact List.mem_cons_self a ps
    cases xs with
    | nil =>
      rw [List.nil_append] at h
      simp only [dropLit, ha] at h
      exact absurd h (by simp)
    | cons c cs =>
      rw [List.cons_append] at h
      simp only [dropLit] at h
      by_cases hc : (c == a) = true
      · rw [if_pos hc] at h
        obtain ⟨r0, h1, h2⟩ := ih (fun hm => hp (List.mem_cons_of_mem _ hm)) cs ys r h
        refine ⟨r0, ?_, h2⟩
        simp only [dropLit]
        rw [if_pos hc]
        exact h1
      · rw [if_neg hc] at h
        exact absurd h (by simp)

theorem takeDigits_append_nondigit {c : Char} (hc : c.isDigit = false)
    (xs ys : List Char) :
    takeDigits (xs ++ c :: ys) = ((takeDigits xs).1, (takeDigits xs).2 ++ c :: ys) := by
  induction xs with
  | nil => simp [takeDigits, hc]
  | cons x t ih =>
    by_cases hx : x.isDigit = true
    · simp [takeDigits, hx, ih]
    · simp [takeDigits, hx]

theorem takeDigits_all {ds : List Char} (h : ∀ c ∈ ds, c.isDigit = true) :
    takeDigits ds = (ds, []) := by
  induction ds with
  | nil => rfl
  | cons c t ih =>
    simp [takeDigits, h c (List.mem_cons_self c t),
      ih (fun x hx => h x (List.mem_cons_of_mem _ hx))]

theorem matchTagAt_append_space {xs ys : List Char} {n : Nat}
    (h : matchTagAt (xs ++ ' ' :: ys) = some n) : matchTagAt xs = some n := by
  unfold matchTagAt at h ⊢
  cases hd : dropLit tagLit (xs ++ ' ' :: ys) with
  | none => rw [hd] at h; exact absurd h (by simp)
  | some rest =>
    rw [hd] at h
    obtain ⟨r0, hr0, hrest⟩ := dropLit_append_space tagLit (by decide) xs ys rest hd
    rw [hr0]
    subst hrest
    dsimp only at h ⊢
    rw [takeDigits_append_nondigit (by decide) r0 ys] at h
    dsimp only at h
    by_cases h1 : (takeDigits r0).1 = []
    · rw [if_pos h1] at h; exact absurd h (by simp)
    · rw [if_neg h1] at h ⊢
      cases hp2 : (takeDigits r0).2 with
      | nil =>
        rw [hp2] at h
        simp at h
      | cons a t =>
        rw [hp2] at h
        dsimp only at h ⊢
        exact h

theorem recoverAux_append_space {xs : List Char} (ys : List Char)
    (h : recoverAux xs = none) :
    recoverAux (xs ++ ' ' :: ys) = recoverAux (' ' :: ys) := by
  induction xs with
  | nil => rfl
  | cons c cs ih =>
    simp only [recoverAux] at h
    cases hm : matchTagAt (c :: cs) with
    | some n => rw [hm] at h; exact absurd h (by simp)
    | none =>
      rw [hm] at h
      rw [List.cons_append]
      simp only [recoverAux]
      cases hm2 : matchTagAt (c :: (cs ++ ' ' :: ys)) with
      | some n =>
        have hup : matchTagAt ((c :: cs) ++ ' ' :: ys) = some n := by
          rw [List.cons_append]; exact hm2
        have := matchTagAt_append_space hup
        rw [hm] at this
        exact absurd this (by simp)
      | none => exact ih h

theorem digitChar_isDigit {d : Nat} (h : d < 10) : (digitChar d).isDigit = true := by
  interval_cases d <;> decide

theorem digitChar_val {d : Nat} (h : d < 10) : digitVal (digitChar d) = d := by
  interval_cases d <;> decide

theorem natDigitsAux_digits :
    ∀ fuel n : Nat, ∀ c ∈ natDigitsAux fuel n, c.isDigit = true := by
  intro fuel
  induction fuel with
  | zero => intro n c hc; cases n <;> simp [natDigitsAux] at hc
  | succ f ih =>
    intro n c hc
    cases n with
    | zero => simp [natDigitsAux] at hc
    | succ m =>
      simp only [natDigitsAux] at hc
      rcases List.mem_append.mp hc with hrec | hlast
      · exact ih _ c hrec
      · have hce : c = digitChar ((m + 1) % 10) := by simpa using hlast
        rw [hce]
        exact digitChar_isDigit (Nat.mod_lt _ (by omega))

theorem natDigitsAux_foldl :
    ∀ fuel n : Nat, n ≤ fuel → ∀ a : Nat,
      (natDigitsAux fuel n).foldl (fun x c => 10 * x + digitVal c) a =
        a * 10 ^ (natDigitsAux fuel n).length + n := by
  intro fuel
  induction fuel with
  | zero =>
    intro n hn a
    interval_cases n
    simp [natDigitsAux]
  | succ f ih =>
    intro n hn a
    cases n with
    | zero => simp [natDigitsAux]
    | succ m =>
      have hdiv : (m + 1) / 10 ≤ f := by
        have h1 : (m + 1) / 10 < m + 1 := Nat.div_lt_self (by omega) (by omega)
        omega
      simp only [natDigitsAux]
      rw [List.foldl_append]
      rw [ih _ hdiv a]
      simp only [List.foldl_cons, List.foldl_nil]
      rw [digitChar_val (Nat.mod_lt _ (by omega))]
      rw [List.length_append]
      simp only [List.length_cons, List.length_nil]
      rw [pow_succ, ← mul_assoc]
      generalize a * 10 ^ (natDigitsAux f ((m + 1) / 10)).length = A
      omega

theorem digitsToNat_natStr (n : Nat) : digitsToNat (natStr n).data = n := by
  unfold natStr
  by_cases h : n = 0
  · rw [if_pos h]; subst h; decide
  · rw [if_neg h]
    have hfold := natDigitsAux_foldl n n le_rfl 0
    simpa [digitsToNat] using hfold

theorem natStr_all_digits (n : Nat) : ∀ c ∈ (natStr n).data, c.isDigit = true := by
  unfold natStr
  by_cases h : n = 0
  · rw [if_pos h]; decide
  · rw [if_neg h]; exact natDigitsAux_digits n n

theorem natStr_ne_nil (n : Nat) : (natStr n).data ≠ [] := by
  unfold natStr
  by_cases h : n = 0
  · rw [if_pos h]; decide
  · rw [if_neg h]
    cases n with
    | zero => exact absurd rfl h
    | succ m => simp [natDigitsAux]

theorem tag_data (name : String) (i : Nat) :
    (tag name (some i)).data =
      name.data ++ ' ' :: (tagLit ++ ((natStr i).data ++ [']'])) := by
  show (name ++ " [check_id:" ++ natStr i ++ "]").data = _
  rw [String.data_append, String.data_append, String.data_append]
  rw [show (" [check_id:" : String).data = ' ' :: tagLit from rfl]
  rw [show ("]" : String).data = [']'] from rfl]
  simp [List.append_assoc]

theorem matchTagAt_space_head (rest : List Char) :
    matchTagAt (' ' :: rest) = none := by
  unfold matchTagAt
  rw [show tagLit = '[' :: ['c', 'h', 'e', 'c', 'k', '_', 'i', 'd', ':'] from rfl]
  simp [dropLit]

theorem recoverAux_cons_none {c : Char} {cs : List Char}
    (h : matchTagAt (c :: cs) = none) : recoverAux (c :: cs) = recoverAux cs := by
  simp only [recoverAux, h]

theorem recoverAux_cons_some {c : Char} {cs : List Char} {n : Nat}
    (h : matchTagAt (c :: cs) = some n) : recoverAux (c :: cs) = some n := by
  simp only [recoverAux, h]

theorem matchTagAt_at_tag (i : Nat) (z : List Char) :
    matchTagAt (tagLit ++ ((natStr i).data ++ ']' :: z)) = some i := by
  unfold matchTagAt
  rw [dropLit_self]
  dsimp only
  rw [takeDigits_append_nondigit (by decide) ((natStr i).data) z]
  rw [takeDigits_all (natStr_all_digits i)]
  dsimp only [List.nil_append]
  rw [if_neg (natStr_ne_nil i)]
  simp [digitsToNat_natStr]

theorem recover_tagged (name : String) (i : Nat) (h : recover name = none) :
    recover (tag name (some i)) = some i := by
  unfold recover
  rw [tag_data]
  rw [recoverAux_append_space _ h]
  rw [recoverAux_cons_none (matchTagAt_space_head _)]
  have hkey := matchTagAt_at_tag i []
  rw [show tagLit ++ ((natStr i).data ++ ']' :: ([] : List Char)) =
      '[' :: (['c', 'h', 'e', 'c', 'k', '_', 'i', 'd', ':'] ++
        ((natStr i).data ++ [']'])) from rfl] at hkey
  rw [show tagLit ++ ((natStr i).data ++ [']']) =
      '[' :: (['c', 'h', 'e', 'c', 'k', '_', 'i', 'd', ':'] ++
        ((natStr i).data ++ [']'])) from rfl]
  exact recoverAux_cons_some hkey

/-- C1.  Identity round-trip: for every id and every name in which the tag
pattern `[check_id:<digits>]` does not match (`recover name = none`), tagging
the name and recovering through the first-match extraction yields exactly the
id, and recovering from an untagged name (absent id leaves the name unchanged)
yields `none`. -/
theorem c1_identity_roundtrip (name : String) (id : Nat)
    (h : recover name = none) :
    recover (tag name (some id)) = some id ∧ recover (tag name none) = none :=
  ⟨recover_tagged name id h, h⟩

theorem c1_identity_roundtrip_witness :
    recover "orders ok" = none ∧
    recover (tag "orders ok" (some 7)) = some 7 ∧
    recover (tag "orders ok" none) = none := by
  have h : recover "orders ok" = none := by decide
  have hc := c1_identity_roundtrip "orders ok" 7 h
  exact ⟨h, hc.1, hc.2⟩

/-! ### C3: sanitizer precedence -/

/-- C3.  `yaml_safe_value` applies its rules in the fixed order: absent value
gives empty text; a value that strips to empty gives empty text; a stripped
value still containing a line break is emitted as a block literal (block
marker, lines rejoined with the 8-space indent unit) with no reserved-character
condition, so this branch wins even when the value also contains reserved
characters; the double-quote branch (backslash-escaping backslashes, then
embedded double quotes) fires only for newline-free values that need quoting
(reserved character, leading quote character, or leading/trailing space); all
other values are emitted verbatim. -/
theorem c3_sanitizer_precedence (s : String) :
    yaml_safe_value none = "" ∧
    (pyStrip s = "" → yaml_safe_value (some s) = "") ∧
    ((pyStrip s).data.contains '\n' = true →
      yaml_safe_value (some s) =
        String.mk (('|' :: '\n' :: spaces8) ++
          joinSep ('\n' :: spaces8) (splitOnNl (pyStrip s).data))) ∧
    ((pyStrip s).data.contains '\n' = false → needsQuoting (pyStrip s).data = true →
      yaml_safe_value (some s) =
        String.mk ('"' :: (escQuote (escBackslash (pyStrip s).data) ++ ['"']))) ∧
    ((pyStrip s).data.contains '\n' = false → needsQuoting (pyStrip s).data = false →
      yaml_safe_value (some s) = pyStrip s) := by
  refine ⟨rfl, ?_, ?_, ?_, ?_⟩
  · intro h
    simp only [yaml_safe_value]
    rw [h]
    rfl
  · intro h
    have hne : (pyStrip s).data ≠ [] := by
      intro h0; rw [h0] at h; exact absurd h (by decide)
    simp only [yaml_safe_value]
    rw [if_neg hne, if_pos h]
  · intro h hq
    have hne : (pyStrip s).data ≠ [] := by
      intro h0; rw [h0] at hq; exact absurd hq (by decide)
    simp only [yaml_safe_value]
    rw [if_neg hne]
    rw [if_neg (by rw [h]; exact Bool.false_ne_true)]
    rw [if_pos hq]
  · intro h hq
    by_cases h0 : (pyStrip s).data = []
    · simp only [yaml_safe_value]
      rw [if_pos h0]
      exact (String.ext h0.symm :)
    · simp only [yaml_safe_value]
      rw [if_neg h0]
      rw [if_neg (by rw [h]; exact Bool.false_ne_true)]
      rw [if_neg (by rw [hq]; exact Bool.false_ne_true)]

theorem c3_sanitizer_precedence_witness :
    (" a:b\nc ".data.contains ':') = true ∧
    (pyStrip " a:b\nc ").data.contains '\n' = true ∧
    yaml_safe_value (some " a:b\nc ") = "|\n        a:b\n        c" := by
  refine ⟨by decide, by decide, ?_⟩
  have h := (c3_sanitizer_precedence " a:b\nc ").2.2.1 (by decide)
  rw [h]
  decide

/-! ### C5: sanitizer idempotence on safe strings (corrected) -/

theorem pyStrip_head (s : String) (h : pyStrip s = s) :
    s.data.head? ≠ some ' ' := by
  intro hh
  cases hsd : s.data with
  | nil => rw [hsd] at hh; exact absurd hh (by simp)
  | cons c t =>
    rw [hsd] at hh
    have hc : c = ' ' := by simpa using hh
    subst hc
    have hlen : (pyStrip s).data.length = s.data.length := by rw [h]
    have hle : (pyStrip s).data.length ≤ t.length := by
      show (((s.data.dropWhile pyIsSpace).reverse.dropWhile pyIsSpace).reverse).length ≤ _
      rw [List.length_reverse]
      calc ((s.data.dropWhile pyIsSpace).reverse.dropWhile pyIsSpace).length
          ≤ (s.data.dropWhile pyIsSpace).reverse.length :=
            (List.dropWhile_sublist pyIsSpace).length_le
        _ = (s.data.dropWhile pyIsSpace).length := List.length_reverse _
        _ ≤ t.length := by
            rw [hsd, List.dropWhile_cons_of_pos (by decide)]
            exact (List.dropWhile_sublist pyIsSpace).length_le
    rw [hlen, hsd] at hle
    simp only [List.length_cons] at hle
    omega

theorem pyStrip_last (s : String) (h : pyStrip s = s) :
    s.data.getLast? ≠ some ' ' := by
  intro hh
  have hrev : s.data.reverse.head? = some ' ' := by
    rw [List.head?_reverse]
    exact hh
  cases hsd : s.data.reverse with
  | nil => rw [hsd] at hrev; exact absurd hrev (by simp)
  | cons c t =>
    rw [hsd] at hrev
    have hc : c = ' ' := by simpa using hrev
    subst hc
    have hlen : (pyStrip s).data.length = s.data.length := by rw [h]
    by_cases hd1 : (s.data.dropWhile pyIsSpace).length = s.data.length
    · have hd1e : s.data.dropWhile pyIsSpace = s.data :=
        (List.dropWhile_sublist pyIsSpace).eq_of_length hd1
      have hle : (pyStrip s).data.length ≤ t.length := by
        show (((s.data.dropWhile pyIsSpace).reverse.dropWhile pyIsSpace).reverse).length ≤ _
        rw [List.length_reverse, hd1e, hsd, List.dropWhile_cons_of_pos (by decide)]
        exact (List.dropWhile_sublist pyIsSpace).length_le
      have hrl : s.data.length = t.length + 1 := by
        rw [← List.length_reverse s.data, hsd]
        simp
      omega
    · have hle : (pyStrip s).data.length ≤ (s.data.dropWhile pyIsSpace).length := by
        show (((s.data.dropWhile pyIsSpace).reverse.dropWhile pyIsSpace).reverse).length ≤ _
        rw [List.length_reverse]
        calc ((s.data.dropWhile pyIsSpace).reverse.dropWhile pyIsSpace).length
            ≤ (s.data.dropWhile pyIsSpace).reverse.length :=
              (List.dropWhile_sublist pyIsSpace).length_le
          _ = (s.data.dropWhile pyIsSpace).length := List.length_reverse _
      have hlt : (s.data.dropWhile pyIsSpace).length ≤ s.data.length :=
        (List.dropWhile_sublist pyIsSpace).length_le
      omega

/-- C5 (amended).  For every string that is fixed by stripping (no leading or
trailing Python whitespace), contains no reserved character and no newline,
and does not start with a single- or double-quote character, the sanitizer is
the identity, and hence idempotent.  (The claim as stated omits the two
quote-character conditions and limits the edge condition to spaces; see the
counterexample.) -/
theorem c5_sanitizer_idempotence (s : String)
    (hstrip : pyStrip s = s)
    (hspec : s.data.all (fun c => !(YAML_SPECIAL_CHARS.contains c)) = true)
    (hnl : s.data.contains '\n' = false)
    (hq1 : s.data.head? ≠ some (Char.ofNat 39))
    (hq2 : s.data.head? ≠ some '"') :
    yaml_safe_value (some s) = s ∧
    yaml_safe_value (some (yaml_safe_value (some s))) = s := by
  have hq : needsQuoting s.data = false := by
    unfold needsQuoting
    have h1 : s.data.any (fun c => YAML_SPECIAL_CHARS.contains c) = false := by
      rw [List.any_eq_false]
      intro c hc
      have hall := (List.all_eq_true.mp hspec) c hc
      simpa using hall
    have h2 : (s.data.head? == some (Char.ofNat 39)) = false :=
      beq_eq_false_iff_ne.mpr hq1
    have h3 : (s.data.head? == some '"') = false := beq_eq_false_iff_ne.mpr hq2
    have h4 : (s.data.head? == some ' ') = false :=
      beq_eq_false_iff_ne.mpr (pyStrip_head s hstrip)
    have h5 : (s.data.getLast? == some ' ') = false :=
      beq_eq_false_iff_ne.mpr (pyStrip_last s hstrip)
    rw [h1, h2, h3, h4, h5]
    rfl
  have hmain : yaml_safe_value (some s) = s := by
    simp only [yaml_safe_value]
    rw [hstrip]
    by_cases h0 : s.data = []
    · rw [if_pos h0]
      exact (String.ext h0.symm :)
    · rw [if_neg h0]
      rw [if_neg (by rw [hnl]; exact Bool.false_ne_true)]
      rw [if_neg (by rw [hq]; exact Bool.false_ne_true)]
  exact ⟨hmain, by rw [hmain, hmain]⟩

theorem c5_sanitizer_idempotence_witness :
    pyStrip "abc" = "abc" ∧ yaml_safe_value (some "abc") = "abc" ∧
    yaml_safe_value (some (yaml_safe_value (some "abc"))) = "abc" := by
  have h := c5_sanitizer_idempotence "abc" (by decide) (by decide) (by decide)
    (by decide) (by decide)
  exact ⟨by decide, h.1, h.2⟩

/-- C5 counterexample.  The string `"x` satisfies every hypothesis of the
claim as stated — no reserved character, no leading or trailing space, no
newline — yet the sanitizer double-quotes it (it starts with a quote
character), so `sanitize(s) ≠ s`. -/
theorem c5_counterexample :
    ("\"x").data.all (fun c => !(YAML_SPECIAL_CHARS.contains c)) = true ∧
    ("\"x").data.contains '\n' = false ∧
    ("\"x").data.head? ≠ some ' ' ∧
    ("\"x").data.getLast? ≠ some ' ' ∧
    yaml_safe_value (some "\"x") = "\"\\\"x\"" ∧
    yaml_safe_value (some "\"x") ≠ "\"x" := by decide

/-! ### C2: grouping completeness (corrected) -/

theorem mem_insertKey {k x : String × String} {l : List (String × String)} :
    x ∈ insertKey k l ↔ x = k ∨ x ∈ l := by
  induction l with
  | nil => simp [insertKey]
  | cons a t ih =>
    unfold insertKey
    by_cases hle : keyLE k a
    · rw [if_pos hle]
      simp
    · rw [if_neg hle]
      simp [ih]
      tauto

theorem mem_sortKeys {x : String × String} {l : List (String × String)} :
    x ∈ sortKeys l ↔ x ∈ l := by
  induction l with
  | nil => simp [sortKeys]
  | cons a t ih => simp [sortKeys, mem_insertKey, ih]

theorem nodup_insertKey {k : String × String} {l : List (String × String)}
    (h : l.Nodup) (hk : k ∉ l) : (insertKey k l).Nodup := by
  induction l with
  | nil => simp [insertKey]
  | cons a t ih =>
    rcases List.nodup_cons.mp h with ⟨hat, ht⟩
    unfold insertKey
    by_cases hle : keyLE k a
    · rw [if_pos hle]
      exact List.nodup_cons.mpr ⟨hk, h⟩
    · rw [if_neg hle]
      refine List.nodup_cons.mpr ⟨?_, ih ht (fun hm => hk (List.mem_cons_of_mem _ hm))⟩
      rw [mem_insertKey]
      rintro (rfl | hmem)
      · exact hk (List.mem_cons_self _ _)
      · exact hat hmem

theorem nodup_sortKeys (l : List (String × String)) (h : l.Nodup) :
    (sortKeys l).Nodup := by
  induction l with
  | nil => simp [sortKeys]
  | cons a t ih =>
    rcases List.nodup_cons.mp h with ⟨hat, ht⟩
    exact nodup_insertKey (ih ht) (fun hm => hat (mem_sortKeys.mp hm))

theorem nodup_groupKeys (checks : List CheckRecord) : (groupKeys checks).Nodup :=
  nodup_sortKeys _ (List.nodup_dedup _)

theorem mem_groupKeys {checks : List CheckRecord} {k : String × String} :
    k ∈ groupKeys checks ↔ k ∈ checks.filterMap recKey := by
  unfold groupKeys
  rw [mem_sortKeys, List.mem_dedup]

theorem emit_ne_nil_iff (r : CheckRecord) :
    _generate_check_yaml r = [] ↔ requiredFieldsPresent r = false := by
  unfold _generate_check_yaml requiredFieldsPresent
  by_cases h1 : r.metric = "freshness"
  · rw [if_pos h1, if_pos h1]
    unfold _generate_freshness_yaml
    rcases hc : r.freshness_column with _ | c <;>
      rcases hv : r.freshness_threshold_value with _ | v <;>
      rcases hu : r.freshness_threshold_unit with _ | u <;> simp
  · rw [if_neg h1, if_neg h1]
    by_cases h2 : r.metric = "schema"
    · rw [if_pos h2, if_pos h2]
      constructor
      · intro h0
        have hg := schema_get1 r
        rw [h0] at hg
        exact absurd hg (by simp)
      · intro h0
        exact absurd h0 (by simp)
    · rw [if_neg h2, if_neg h2]
      by_cases h3 : r.metric = "reference"
      · rw [if_pos h3, if_pos h3]
        unfold _generate_reference_yaml
        rcases ht : r.reference_table with _ | t <;>
          rcases hcol : r.reference_column with _ | c <;> simp
      · rw [if_neg h3, if_neg h3]
        by_cases h4 : r.metric = "user_defined" ∨ r.metric = "custom_sql"
        · rw [if_pos h4, if_pos h4]
          unfold _generate_custom_sql_yaml
          rcases hq : r.custom_sql_query with _ | q <;> simp
        · rw [if_neg h4, if_neg h4]
          by_cases h5 : r.metric = "scalar_comparison"
          · rw [if_pos h5, if_pos h5]
            unfold _generate_scalar_comparison_yaml
            rcases ha : r.scalar_query_a with _ | qa <;>
              rcases hb : r.scalar_query_b with _ | qb <;> simp
          · rw [if_neg h5, if_neg h5]
            simp

theorem emit_infix_tableLines {checks : List CheckRecord} {r : CheckRecord}
    {k : String × String} (hr : r ∈ checks) (hk : recKey r = some k) :
    _generate_check_yaml r <:+: tableLines checks k := by
  unfold tableLines
  apply List.infix_of_mem_flatten
  apply List.mem_map_of_mem
  unfold groupRows
  rw [List.mem_filter]
  exact ⟨hr, by simp [hk]⟩

theorem tableLines_ne_nil {checks : List CheckRecord} {r : CheckRecord}
    {k : String × String} (hr : r ∈ checks) (hk : recKey r = some k)
    (hne : _generate_check_yaml r ≠ []) : tableLines checks k ≠ [] := by
  intro h0
  have hinf := emit_infix_tableLines hr hk
  rw [h0] at hinf
  exact hne (List.sublist_nil.mp hinf.sublist)

theorem tableBlocks_mem_shape {checks : List CheckRecord}
    {b : (String × String) × List String} (hb : b ∈ tableBlocks checks) :
    b.1 ∈ groupKeys checks ∧ b.2 = tableLines checks b.1 := by
  unfold tableBlocks at hb
  rcases List.mem_filterMap.mp hb with ⟨k, hk, hfk⟩
  by_cases h : tableLines checks k = []
  · rw [if_pos h] at hfk
    exact absurd hfk (by simp)
  · rw [if_neg h] at hfk
    have hbk : (k, tableLines checks k) = b := Option.some.inj hfk
    rw [← hbk]
    exact ⟨hk, rfl⟩

theorem blocks_filter_one_aux (checks : List CheckRecord) :
    ∀ ks : List (String × String), ks.Nodup →
      ∀ k ∈ ks, tableLines checks k ≠ [] →
        ((ks.filterMap (fun k' =>
            if tableLines checks k' = [] then none
            else some (k', tableLines checks k'))).filter
          (fun b => b.1 == k)).length = 1 := by
  intro ks
  induction ks with
  | nil => intro _ k hk; exact absurd hk (List.not_mem_nil k)
  | cons a t ih =>
    intro hnd k hk hne
    rcases List.nodup_cons.mp hnd with ⟨hat, ht⟩
    rw [List.filterMap_cons]
    rcases List.mem_cons.mp hk with rfl | hkt
    · rw [if_neg hne]
      rw [List.filter_cons]
      dsimp only
      rw [if_pos (by simp)]
      simp only [List.length_cons]
      have hrest : ((t.filterMap (fun k' =>
          if tableLines checks k' = [] then none
          else some (k', tableLines checks k'))).filter
            (fun b => b.1 == k)) = [] := by
        rw [List.filter_eq_nil_iff]
        intro b hbm
        rcases List.mem_filterMap.mp hbm with ⟨k', hk', hfk'⟩
        have hb1 : b.1 = k' := by
          by_cases h : tableLines checks k' = []
          · rw [if_pos h] at hfk'
            exact absurd hfk' (by simp)
          · rw [if_neg h] at hfk'
            rw [← Option.some.inj hfk']
        simp only [hb1]
        intro he
        rw [beq_iff_eq] at he
        exact hat (he ▸ hk')
      rw [hrest]
      rfl
    · by_cases ha : tableLines checks a = []
      · rw [if_pos ha]
        exact ih ht k hkt hne
      · rw [if_neg ha]
        rw [List.filter_cons]
        dsimp only
        have hne2 : (((a, tableLines checks a)).1 == k) = false := by
          refine beq_eq_false_iff_ne.mpr ?_
          intro he
          refine hat ?_
          rw [show a = k from he]
          exact hkt
        rw [if_neg (by rw [hne2]; exact Bool.false_ne_true)]
        exact ih ht k hkt hne

theorem tableBlocks_filter_one {checks : List CheckRecord} {k : String × String}
    (hk : k ∈ groupKeys checks) (hne : tableLines checks k ≠ []) :
    ((tableBlocks checks).filter (fun b => b.1 == k)).length = 1 :=
  blocks_filter_one_aux checks (groupKeys checks) (nodup_groupKeys checks) k hk hne

/-- C2 (amended).  Grouping completeness with silent skip: a record whose
category guard fails emits no rule (silent skip); a record whose guard holds
and whose `schema_name` grouping key is present appears in exactly one table
block of the assembled document — exactly one block carries its
(schema, table) key, and its emitted lines are an infix of that block's
lines.  (The claim as stated also covers records with a missing
`schema_name`; pandas `groupby` silently drops those rows, so they appear in
no block — see the counterexample.) -/
theorem c2_grouping_completeness (checks : List CheckRecord) (r : CheckRecord)
    (hr : r ∈ checks) :
    (requiredFieldsPresent r = false → _generate_check_yaml r = []) ∧
    (∀ s : String, requiredFieldsPresent r = true → r.schema_name = some s →
      ((tableBlocks checks).filter (fun b => b.1 == (s, r.table_name))).length = 1 ∧
      ∀ b ∈ tableBlocks checks, b.1 = (s, r.table_name) →
        _generate_check_yaml r <:+: b.2) := by
  constructor
  · intro h
    exact (emit_ne_nil_iff r).mpr h
  · intro s hreq hs
    have hk : recKey r = some (s, r.table_name) := by simp [recKey, hs]
    have hne : _generate_check_yaml r ≠ [] := by
      intro h0
      rw [(emit_ne_nil_iff r).mp h0] at hreq
      exact Bool.false_ne_true hreq
    have hlines := tableLines_ne_nil hr hk hne
    have hmem : (s, r.table_name) ∈ groupKeys checks :=
      mem_groupKeys.mpr (List.mem_filterMap.mpr ⟨r, hr, hk⟩)
    refine ⟨tableBlocks_filter_one hmem hlines, ?_⟩
    intro b hb hbk
    obtain ⟨_, hb2⟩ := tableBlocks_mem_shape hb
    rw [hb2, hbk]
    exact emit_infix_tableLines hr hk

def c2rec : CheckRecord :=
  { baseRecord with
    metric := "row_count", check_name := "rc", table_name := "t"
    schema_name := none }

/-- C2 counterexample.  A `row_count` record with every category-specific
required field present but a missing (`NaN`) `schema_name`: its emitter
produces a stanza, yet pandas `groupby(['schema_name', 'table_name'])` drops
the row, so the assembled document has no block at all — the record appears
in no table block, refuting the claim as stated. -/
theorem c2_counterexample :
    requiredFieldsPresent c2rec = true ∧
    _generate_check_yaml c2rec ≠ [] ∧
    c2rec.schema_name = none ∧
    tableBlocks [c2rec] = [] ∧
    generate_yaml_from_checks [c2rec] none = "" := by decide

def c2rec2 : CheckRecord :=
  { baseRecord with
    metric := "row_count", check_name := "rc", table_name := "t"
    schema_name := some "dbo" }

theorem c2_grouping_completeness_witness :
    ((tableBlocks [c2rec2]).filter (fun b => b.1 == ("dbo", "t"))).length = 1 ∧
    ∀ b ∈ tableBlocks [c2rec2], b.1 = ("dbo", "t") →
      _generate_check_yaml c2rec2 <:+: b.2 := by
  have h := (c2_grouping_completeness [c2rec2] c2rec2 (List.mem_singleton.mpr rfl)).2
    "dbo" (by decide) rfl
  exact ⟨h.1, h.2⟩

/-! ### C8: exception path of the orchestrator (corrected) -/

/-- C8 (amended).  If an unexpected exception with text `e` is raised in the
read, compile/execute, or write phase after the execution-log row was created
with a nonzero id, `execute_suite` issues a best-effort ledger update carrying
the current rule text, all-zero counts and the error text — recorded when the
update itself succeeds and silently swallowed when it fails — and in every
case re-raises the original error to the caller.  When the error text is
nonempty that update's status is `failed` (Python truthiness renders an empty
error text as status `completed`).  (The claim as stated also covers a
created row with id `0`, which the truthiness guard `if conn and
execution_log_id` skips — see the counterexample.) -/
theorem c8_exception_path (o : Oracles) (lid : Nat) (e : String)
    (hconn : o.conn = .ok ()) (hlog : o.create_log = .ok lid) (hlid : lid ≠ 0) :
    (o.read_checks = .error e →
      execute_suite o =
        { result := .error e
          ledger := if o.rescue_update_ok then
              [update_execution_log lid 0 0 0 0 "" (some e)] else [] }) ∧
    (∀ checks, o.read_checks = .ok checks → checks ≠ [] →
      (o.scan = .error e →
        execute_suite o =
          { result := .error e
            ledger := if o.rescue_update_ok then
                [update_execution_log lid 0 0 0 0
                  (generate_yaml_from_checks checks none) (some e)] else [] }) ∧
      (∀ so, o.scan = .ok so →
        (o.write_db = .error e →
          execute_suite o =
            { result := .error e
              ledger := if o.rescue_update_ok then
                  [update_execution_log lid 0 0 0 0
                    (generate_yaml_from_checks checks none) (some e)] else [] }) ∧
        (o.write_db = .ok () → o.update_log_call = .error e →
          execute_suite o =
            { result := .error e
              ledger := if o.rescue_update_ok then
                  [update_execution_log lid 0 0 0 0
                    (generate_yaml_from_checks checks none) (some e)] else [] }) ∧
        (o.write_db = .ok () → o.update_log_call = .ok () → o.onelake = .error e →
          execute_suite o =
            { result := .error e
              ledger :=
                update_execution_log lid
                  (count_outcomes (parse_scan_results so.checks)).total
                  (count_outcomes (parse_scan_results so.checks)).passed
                  (count_outcomes (parse_scan_results so.checks)).failed
                  (count_outcomes (parse_scan_results so.checks)).warned
                  (generate_yaml_from_checks checks none)
                  (if so.has_errors then so.error_logs else none) ::
                (if o.rescue_update_ok then
                  [update_execution_log lid 0 0 0 0
                    (generate_yaml_from_checks checks none) (some e)] else []) }))) ∧
    (∀ y : String, e ≠ "" →
      update_execution_log lid 0 0 0 0 y (some e) =
        { execution_log_id := lid, status := "failed", total_checks := 0
          checks_passed := 0, checks_failed := 0, checks_warned := 0
          has_failures := 0, generated_yaml := y, error_message := some e }) := by
  have hres : ∀ y msg, rescueWrites lid y msg o.rescue_update_ok =
      if o.rescue_update_ok then [update_execution_log lid 0 0 0 0 y (some msg)]
      else [] := by
    intro y msg
    unfold rescueWrites
    have hb : (lid != 0) = true := by simpa using hlid
    rw [hb]
    by_cases hok : o.rescue_update_ok
    · rw [hok]
      rfl
    · simp only [Bool.not_eq_true] at hok
      rw [hok]
      rfl
  refine ⟨?_, ?_, ?_⟩
  · intro hread
    unfold execute_suite
    rw [hconn, hlog, hread]
    dsimp only
    rw [hres]
  · intro checks hread hne
    refine ⟨?_, ?_⟩
    · intro hscan
      unfold execute_suite
      rw [hconn, hlog, hread]
      dsimp only
      rw [if_neg hne, hscan]
      dsimp only
      rw [hres]
    · intro so hscan
      refine ⟨?_, ?_, ?_⟩
      · intro hwrite
        unfold execute_suite
        rw [hconn, hlog, hread]
        dsimp only
        rw [if_neg hne, hscan]
        dsimp only
        rw [hwrite]
        dsimp only
        rw [hres]
      · intro hwrite hupd
        unfold execute_suite
        rw [hconn, hlog, hread]
        dsimp only
        rw [if_neg hne, hscan]
        dsimp only
        rw [hwrite]
        dsimp only
        rw [hupd]
        dsimp only
        rw [hres]
      · intro hwrite hupd hlake
        unfold execute_suite
        rw [hconn, hlog, hread]
        dsimp only
        rw [if_neg hne, hscan]
        dsimp only
        rw [hwrite]
        dsimp only
        rw [hupd]
        dsimp only
        rw [hlake]
        dsimp only
        rw [hres]
  · intro y he
    unfold update_execution_log
    have hst : pyTruthy (some e) = true := by
      unfold pyTruthy
      simpa using he
    rw [hst]
    rfl

def c8oracle : Oracles :=
  { conn := .ok (), create_log := .ok 0, read_checks := .error "boom"
    scan := .error "boom", write_db := .ok (), update_log_call := .ok ()
    onelake := .ok (), rescue_update_ok := true }

/-- C8 counterexample.  A run whose execution-log row is created with id `0`:
the read phase raises `boom`, the best-effort ledger update would succeed,
yet the truthiness guard `if conn and execution_log_id` treats the id `0` as
falsy — the error is re-raised but the ledger receives no `failed` update,
refuting the claim as stated. -/
theorem c8_counterexample :
    c8oracle.create_log = .ok 0 ∧
    c8oracle.read_checks = .error "boom" ∧
    c8oracle.rescue_update_ok = true ∧
    execute_suite c8oracle = { result := .error "boom", ledger := [] } := by
  refine ⟨rfl, rfl, rfl, ?_⟩
  rfl

def c8oracle2 : Oracles :=
  { conn := .ok (), create_log := .ok 5, read_checks := .error "boom"
    scan := .error "boom", write_db := .ok (), update_log_call := .ok ()
    onelake := .ok (), rescue_update_ok := true }

theorem c8_exception_path_witness :
    execute_suite c8oracle2 =
      { result := .error "boom"
        ledger := [{ execution_log_id := 5, status := "failed", total_checks := 0
                     checks_passed := 0, checks_failed := 0, checks_warned := 0
                     has_failures := 0, generated_yaml := ""
                     error_message := some "boom" }] } := by
  have h := c8_exception_path c8oracle2 5 "boom" rfl rfl (by decide)
  rw [h.1 rfl]
  rw [h.2.2 "" (by decide)]
  rfl
